import Mathlib

/-!
Verification development for the discord-webfic-searcher repository
(src/webfic_searcher.py). The Python source is shallowly embedded:
pure helpers become Lean functions, the SQLite settings store becomes an
explicit association of table names to row lists, the upstream provider
clients become function-valued records (oracles), exceptions become
Except, and the wall clock (discord.utils.utcnow) becomes an explicit
Nat parameter. All definitions follow the source code of
src/webfic_searcher.py; section comments cite the functions they embed.
-/

/-! ### Python string helpers

Embeddings of the Python string operations used by the source:
str.split() with no argument, str.lstrip, str.capitalize, the format
specifier with a comma (group digits by thousands), strftime with the
format B d, Y, and textwrap.shorten with max_lines equal to one.
-/

/-- Characters treated as whitespace by Python str.split and textwrap. -/
def pyIsSpaceChar (c : Char) : Bool :=
  c = ' ' || c = '\t' || c = '\n' || c = '\r' || c = '\x0b' || c = '\x0c'

/-- Helper for pyWords: split a character list on whitespace runs. -/
def splitWsAux : List Char → List Char → List (List Char)
  | [], acc => if acc.isEmpty then [] else [acc.reverse]
  | c :: cs, acc =>
    if pyIsSpaceChar c then
      if acc.isEmpty then splitWsAux cs [] else acc.reverse :: splitWsAux cs []
    else splitWsAux cs (c :: acc)

/-- Python str.split() with no separator: whitespace-delimited words. -/
def pyWords (s : String) : List String :=
  (splitWsAux s.data []).map List.asString

/-- Python str.lstrip(): drop leading whitespace. -/
def pyLstrip (s : String) : String :=
  ⟨s.data.dropWhile pyIsSpaceChar⟩

/-- Join a list of strings with a separator, like Python str.join. -/
def sjoin (sep : String) (xs : List String) : String :=
  String.intercalate sep xs

/-- Python str.capitalize(): first character uppercased, the rest lowercased. -/
def pyCapitalize (s : String) : String :=
  match s.data with
  | [] => ""
  | c :: cs => ⟨c.toUpper :: cs.map Char.toLower⟩

/-- Helper for pyCommaFmt: walk the reversed digit list inserting commas. -/
def commaRevAux : List Char → Nat → List Char
  | [], _ => []
  | c :: cs, i =>
    (if i ≠ 0 && i % 3 == 0 then [',', c] else [c]) ++ commaRevAux cs (i + 1)

/-- Python format spec with a comma, as in {n:,d}: thousands separators. -/
def pyCommaFmt (n : Nat) : String :=
  ((commaRevAux (Nat.repr n).data.reverse 0).reverse).asString

/-- Zero-padded two-digit rendering used by strftime %d. -/
def pad2 (n : Nat) : String :=
  if n < 10 then "0" ++ Nat.repr n else Nat.repr n

/-- Full month name used by strftime %B (months are 1-based). -/
def monthName (m : Nat) : String :=
  (["January", "February", "March", "April", "May", "June", "July",
    "August", "September", "October", "November", "December"].get? (m - 1)).getD ""

/-- A calendar date, standing in for Python datetime values. -/
structure PyDate where
  year : Nat
  month : Nat
  day : Nat
deriving DecidableEq, Repr

/-- Python strftime with format string B d, Y as used by the renderer. -/
def PyDate.strftimeBdY (d : PyDate) : String :=
  monthName d.month ++ " " ++ pad2 d.day ++ ", " ++ Nat.repr d.year

/-- Python substring containment, the in operator on str. -/
def litAtL : List Char → List Char → Option (List Char)
  | [], s => some s
  | _ :: _, [] => none
  | p :: ps, c :: cs => if c = p then litAtL ps cs else none

/-- Consume a literal string at the head of the subject, returning the rest. -/
def litAt (pat : String) (s : List Char) : Option (List Char) :=
  litAtL pat.data s

/-- Helper for pyContains: does the needle occur in the haystack list. -/
def containsSub (hay needle : List Char) : Bool :=
  if (litAtL needle hay).isSome then true
  else match hay with
    | [] => false
    | _ :: t => containsSub t needle

/-- Python substring test: needle in haystack. -/
def pyContains (needle hay : String) : Bool :=
  containsSub hay.data needle.data

/-- Embedding of textwrap.shorten(text, width, placeholder) for the
single-line case (max_lines equal to one) used throughout the renderer.
Whitespace is collapsed; if the collapsed text fits it is returned;
otherwise the longest word prefix that fits together with the
placeholder is kept (greedy fill followed by trailing drops in the
source library is equivalent to the longest fitting prefix, because
joined length is monotone in the prefix); if no word fits, the result
is the left-stripped placeholder. A width smaller than the stripped
placeholder raises ValueError (the error case), checked before
anything else as in the library. -/
def shorten (text : String) (width : Int) (placeholder : String) : Except Unit String :=
  if ((pyLstrip placeholder).length : Int) > width then Except.error ()
  else if ((sjoin " " (pyWords text)).length : Int) ≤ width then
    Except.ok (sjoin " " (pyWords text))
  else
    match ((pyWords text).inits.filter fun pr =>
        !pr.isEmpty && decide ((sjoin " " pr).length + placeholder.length ≤ width.toNat)).getLast? with
    | some pr => Except.ok (sjoin " " pr ++ placeholder)
    | none => Except.ok (pyLstrip placeholder)

theorem getLast?_mem {α : Type} {l : List α} {a : α} (h : l.getLast? = some a) : a ∈ l := by
  induction l with
  | nil => simp [List.getLast?] at h
  | cons x xs ih =>
    cases xs with
    | nil =>
      simp [List.getLast?] at h
      simp [h]
    | cons y ys =>
      rw [List.getLast?_cons_cons] at h
      exact List.mem_cons_of_mem _ (ih h)

theorem shorten_ok_length {t p r : String} {w : Int}
    (h : shorten t w p = Except.ok r) : (r.length : Int) ≤ w := by
  unfold shorten at h
  split at h
  · exact absurd h (by simp)
  · rename_i hw
    push_neg at hw
    split at h
    · rename_i hfit
      rw [Except.ok.injEq] at h
      subst h
      omega
    · rename_i hnofit
      split at h
      · rename_i pr hl
        rw [Except.ok.injEq] at h
        have hmem := getLast?_mem hl
        have hpred := (List.mem_filter.mp hmem).2
        simp only [Bool.and_eq_true, decide_eq_true_eq] at hpred
        have hlen : r.length = (sjoin " " pr).length + p.length := by
          rw [← h, String.length_append]
        have hnn : (0 : Int) ≤ w := le_trans (by positivity) hw
        omega
      · rw [Except.ok.injEq] at h
        subst h
        omega

/-! ### Display card model

Embedding of the parts of discord.Embed used by the source: title, url,
description, timestamp, author (name, url, icon), fields and footer.
The Python len of an embed counts title, description, field names and
values, footer text and author name; embedLen mirrors that. The tag
isNotFoundCard models the dynamic class test isinstance NotFoundEmbed
performed in on_message. The timestamp field records the value of
discord.utils.utcnow at construction, modelled as an explicit Nat. -/

/-- One field of a display card, as added by Embed.add_field. -/
structure EmbedField where
  name : String
  value : String
  inline : Bool
deriving DecidableEq, Repr

/-- Author block of a display card, as set by Embed.set_author. -/
structure EmbedAuthor where
  name : String
  url : String
  icon_url : Option String
deriving DecidableEq, Repr

/-- A display card, the embedding of discord.Embed. -/
structure Embed where
  title : Option String
  url : Option String
  description : Option String
  timestamp : Option Nat
  author : Option EmbedAuthor
  fields : List EmbedField
  footer : Option String
  isNotFoundCard : Bool
deriving DecidableEq, Repr

/-- Length of an optional string, zero when absent. -/
def optLen : Option String → Nat
  | some s => s.length
  | none => 0

/-- Python len of a discord.Embed: title, description, all field names
and values, footer text and author name. -/
def embedLen (e : Embed) : Nat :=
  optLen e.title + optLen e.description
    + (e.fields.map fun f => f.name.length + f.value.length).sum
    + optLen e.footer
    + (match e.author with | some a => a.name.length | none => 0)

deriving instance DecidableEq for Except

/-- Exceptions that can escape the embedded functions. -/
inductive PyExc
  | atlasExc
  | fichubExc
  | ao3Exc
  | indexError
  | valueError
  | keyError
deriving DecidableEq, Repr

/-- shorten with its ValueError mapped into PyExc. -/
def shortenE (text : String) (width : Int) (placeholder : String) : Except PyExc String :=
  match shorten text width placeholder with
  | Except.ok r => Except.ok r
  | Except.error _ => Except.error PyExc.valueError

/-- Python sequence indexing s[0] via head, raising IndexError when empty. -/
def headE {α : Type} : List α → Except PyExc α
  | [] => Except.error PyExc.indexError
  | a :: _ => Except.ok a

/-- Python list indexing with negative-index wraparound and IndexError. -/
def pyGet {α : Type} (xs : List α) (i : Int) : Except PyExc α :=
  let j : Int := if i < 0 then i + xs.length else i
  if j < 0 then Except.error PyExc.indexError
  else match xs.get? j.toNat with
    | some a => Except.ok a
    | none => Except.error PyExc.indexError

/-- Python int() applied to a captured digit string. -/
def pyInt (s : String) : Nat :=
  s.toNat?.getD 0

theorem bindE_ok {ε α β : Type} {x : Except ε α} {f : α → Except ε β} {b : β} :
    (x >>= f) = Except.ok b ↔ ∃ a, x = Except.ok a ∧ f a = Except.ok b := by
  cases x <;> simp [Bind.bind, Except.bind]

theorem shortenE_ok_length {t p r : String} {w : Int}
    (h : shortenE t w p = Except.ok r) : (r.length : Int) ≤ w := by
  unfold shortenE at h
  split at h
  · rename_i hs
    rw [Except.ok.injEq] at h
    subst h
    exact shorten_ok_length hs
  · exact absurd h (by simp)

/-! ### Story metadata records

Embeddings of the provider record types consumed by the renderer:
ao3.Work, ao3.Series, atlas_api.Story and fichub_api.Story, restricted
to the attributes the source reads. -/

/-- An AO3 user as read by the renderer (only the name attribute). -/
structure Ao3Author where
  name : String
deriving DecidableEq, Repr

/-- The attributes of ao3.Work read by create_ao3_work_embed. -/
structure Ao3Work where
  title : String
  url : String
  date_updated : Option PyDate
  is_complete : Bool
  authors : List Ao3Author
  fandoms : List String
  categories : List String
  characters : List String
  ncomments : Nat
  nkudos : Nat
  nbookmarks : Nat
  nhits : Nat
  nwords : Nat
  nchapters : Nat
  rating : String
  summary : String
deriving DecidableEq, Repr

/-- The attributes of ao3.Series read by create_ao3_series_embed and
AO3SeriesView. -/
structure Ao3Series where
  name : String
  url : String
  date_updated : Option PyDate
  is_complete : Bool
  creators : List Ao3Author
  description : String
  nwords : Nat
  nworks : Nat
  works_list : List Ao3Work
deriving DecidableEq, Repr

/-- The author attribute of atlas_api.Story. -/
structure AtlasAuthor where
  name : String
  url : String
deriving DecidableEq, Repr

/-- The attributes of atlas_api.Story read by create_atlas_ffn_embed. -/
structure AtlasStory where
  title : String
  url : String
  updated : Option PyDate
  published : PyDate
  is_complete : Bool
  author : AtlasAuthor
  fandoms : List String
  genres : List String
  characters : List String
  reviews : Nat
  favorites : Nat
  follows : Nat
  words : Nat
  chapters : Nat
  rating : String
  description : String
deriving DecidableEq, Repr

/-- The author attribute of fichub_api.Story. -/
structure FichubAuthor where
  name : String
  url : String
deriving DecidableEq, Repr

/-- The attributes of fichub_api.Story read by create_fichub_embed. -/
structure FichubStory where
  title : String
  url : String
  updated : PyDate
  status : String
  author : FichubAuthor
  fandoms : List String
  more_meta_category : List String
  characters : List String
  stats : List (String × Nat)
  words : Nat
  chapters : Nat
  rating : String
  description : String
deriving DecidableEq, Repr

/-- The union of story data types flowing through the pipeline
(StoryDataType in the source). -/
inductive StoryData
  | atlas (s : AtlasStory)
  | fichub (s : FichubStory)
  | ao3Work (w : Ao3Work)
  | ao3Series (s : Ao3Series)
deriving DecidableEq, Repr

/-! ### Link detector

Hand-compilation of the regular expressions in STORY_WEBSITE_STORE and
of STORY_WEBSITE_REGEX. The combined pattern is the alternation, in
registration order FFN, FP, AO3, SB, SV, QQ, SIYE, of each story_regex
wrapped in a named group; the optional scheme prefix
http or https applies only to the first alternative (FFN) because the
alternation binds loosest. Matching scans left to right and, at a given
position, tries alternatives in order, with backtracking across the
optional-prefix alternations. lastgroup of a match is the name of the
outermost group of the alternative that fired. -/

/-- A matcher consumes characters from the subject and produces the
consumed characters, a payload of captures, and the rest. -/
def altPre {β : Type} (ps : List String)
    (core : List Char → Option (List Char × β × List Char)) (s : List Char) :
    Option (List Char × β × List Char) :=
  match ps with
  | [] => none
  | p :: rest =>
    match litAt p s with
    | some r =>
      match core r with
      | some (cons, b, rst) => some (p.data ++ cons, b, rst)
      | none => altPre rest core s
    | none => altPre rest core s

/-- Greedy run of one or more ASCII digits, the regex d plus. -/
def digitsRun (s : List Char) : Option (List Char × List Char) :=
  let ds := s.takeWhile Char.isDigit
  if ds.isEmpty then none else some (ds, s.dropWhile Char.isDigit)

/-- Core of the FFN pattern after the optional www or m prefix:
the literal fanfiction.net/s/ followed by captured digits. -/
def ffnCoreAt (s : List Char) : Option (List Char × String × List Char) :=
  match litAt "fanfiction.net/s/" s with
  | none => none
  | some r1 =>
    match digitsRun r1 with
    | none => none
    | some (ds, rst) => some ("fanfiction.net/s/".data ++ ds, ds.asString, rst)

/-- The FFN story_regex: optional www. or m. then the FFN core. -/
def ffnAt (s : List Char) : Option (List Char × String × List Char) :=
  altPre ["www.", "m.", ""] ffnCoreAt s

/-- Core of the FP pattern: fictionpress.com/s/ followed by digits. -/
def fpCoreAt (s : List Char) : Option (List Char × Unit × List Char) :=
  match litAt "fictionpress.com/s/" s with
  | none => none
  | some r1 =>
    match digitsRun r1 with
    | none => none
    | some (ds, rst) => some ("fictionpress.com/s/".data ++ ds, (), rst)

/-- The FP story_regex: optional www. or m. then the FP core. -/
def fpAt (s : List Char) : Option (List Char × Unit × List Char) :=
  altPre ["www.", "m.", ""] fpCoreAt s

/-- One sub-type alternative of the AO3 pattern: the type literal, a
slash, then captured digits. The capture is the type without the slash. -/
def ao3TypeAt (ty : String) (r1 : List Char) :
    Option (List Char × (String × String) × List Char) :=
  match litAt (ty ++ "/") r1 with
  | none => none
  | some r2 =>
    match digitsRun r2 with
    | none => none
    | some (ds, rst) =>
      some ("archiveofourown.org/".data ++ (ty ++ "/").data ++ ds, (ty, ds.asString), rst)

/-- Core of the AO3 pattern: archiveofourown.org/ then works or series
(tried in that order, with backtracking) then digits. -/
def ao3CoreAt (s : List Char) : Option (List Char × (String × String) × List Char) :=
  match litAt "archiveofourown.org/" s with
  | none => none
  | some r1 =>
    match ao3TypeAt "works" r1 with
    | some x => some x
    | none => ao3TypeAt "series" r1

/-- The AO3 story_regex: optional www. then the AO3 core. -/
def ao3At (s : List Char) : Option (List Char × (String × String) × List Char) :=
  altPre ["www.", ""] ao3CoreAt s

/-- Forum-style pattern: a fixed host literal followed by a greedy,
possibly empty run of non-whitespace characters. -/
def threadsAt (host : String) (s : List Char) : Option (List Char × Unit × List Char) :=
  match litAt host s with
  | none => none
  | some r =>
    some (host.data ++ r.takeWhile (fun c => !pyIsSpaceChar c), (),
          r.dropWhile (fun c => !pyIsSpaceChar c))

/-- The SB story_regex. -/
def sbAt (s : List Char) : Option (List Char × Unit × List Char) :=
  threadsAt "forums.spacebattles.com/threads/" s

/-- The SV story_regex. -/
def svAt (s : List Char) : Option (List Char × Unit × List Char) :=
  threadsAt "forums.sufficientvelocity.com/threads/" s

/-- The QQ story_regex. -/
def qqAt (s : List Char) : Option (List Char × Unit × List Char) :=
  threadsAt "forums.questionablequesting.com/threads/" s

/-- Tail of the SIYE pattern: viewstory.php?sid= then digits. -/
def siyeTailAt (s : List Char) : Option (List Char × Unit × List Char) :=
  match litAt "viewstory.php?sid=" s with
  | none => none
  | some r1 =>
    match digitsRun r1 with
    | none => none
    | some (ds, rst) => some ("viewstory.php?sid=".data ++ ds, (), rst)

/-- Core of the SIYE pattern: siye.co.uk/ then an optional siye/ then
the viewstory tail. -/
def siyeCoreAt (s : List Char) : Option (List Char × Unit × List Char) :=
  match litAt "siye.co.uk/" s with
  | none => none
  | some r1 =>
    match altPre ["siye/", ""] siyeTailAt r1 with
    | some (cons, u, rst) => some ("siye.co.uk/".data ++ cons, u, rst)
    | none => none

/-- The SIYE story_regex: optional www. then the SIYE core. -/
def siyeAt (s : List Char) : Option (List Char × Unit × List Char) :=
  altPre ["www.", ""] siyeCoreAt s

/-- One occurrence reported by the combined STORY_WEBSITE_REGEX: the
name of the alternative that fired (lastgroup), the matched substring
(group 0) and the named captures of the FFN and AO3 alternatives. -/
structure SiteMatch where
  site : String
  matched : String
  ffn_id : Option String := none
  ao3_type : Option String := none
  ao3_id : Option String := none
deriving DecidableEq, Repr

/-- Attempt the combined STORY_WEBSITE_REGEX at one position: the scheme
prefix alternation applies to the FFN alternative only; the remaining
alternatives are tried in registration order. -/
def matchAt (s : List Char) : Option (SiteMatch × List Char) :=
  match altPre ["http://", "https://", ""] ffnAt s with
  | some (cons, fid, rst) =>
    some ({ site := "FFN", matched := cons.asString, ffn_id := some fid }, rst)
  | none =>
  match fpAt s with
  | some (cons, _, rst) => some ({ site := "FP", matched := cons.asString }, rst)
  | none =>
  match ao3At s with
  | some (cons, tyid, rst) =>
    some ({ site := "AO3", matched := cons.asString,
            ao3_type := some tyid.1, ao3_id := some tyid.2 }, rst)
  | none =>
  match sbAt s with
  | some (cons, _, rst) => some ({ site := "SB", matched := cons.asString }, rst)
  | none =>
  match svAt s with
  | some (cons, _, rst) => some ({ site := "SV", matched := cons.asString }, rst)
  | none =>
  match qqAt s with
  | some (cons, _, rst) => some ({ site := "QQ", matched := cons.asString }, rst)
  | none =>
  match siyeAt s with
  | some (cons, _, rst) => some ({ site := "SIYE", matched := cons.asString }, rst)
  | none => none

/-- Scan for all non-overlapping matches left to right, resuming after
the end of each match, as re.finditer does. Fuel bounds the recursion;
every alternative consumes at least one character, so a fuel of the
subject length plus one is enough. -/
def finditerAux : Nat → List Char → List SiteMatch
  | 0, _ => []
  | Nat.succ fuel, s =>
    match matchAt s with
    | some (m, rst) => m :: finditerAux fuel rst
    | none =>
      match s with
      | [] => []
      | _ :: t => finditerAux fuel t

/-- re.finditer over STORY_WEBSITE_REGEX. -/
def finditer (text : String) : List SiteMatch :=
  finditerAux (text.data.length + 1) text.data

/-- Generic re.search: try a matcher at every position left to right. -/
def searchAux {α : Type} (m : List Char → Option α) : Nat → List Char → Option α
  | 0, _ => none
  | Nat.succ fuel, s =>
    match m s with
    | some r => some r
    | none =>
      match s with
      | [] => none
      | _ :: t => searchAux m fuel t

/-- re.search with an arbitrary compiled matcher. -/
def searchIn {α : Type} (m : List Char → Option α) (s : String) : Option α :=
  searchAux m (s.data.length + 1) s.data

/-- The result of re.search over the AO3 story_regex, as consumed by
search_ao3: group 0, the type capture and the ao3_id capture. -/
structure AO3UrlMatch where
  matched : String
  mtype : String
  id : String
deriving DecidableEq, Repr

/-- re.search of STORY_WEBSITE_STORE AO3 story_regex over a query. -/
def ao3Search (q : String) : Option AO3UrlMatch :=
  searchIn (fun s =>
    (ao3At s).map fun x => { matched := x.1.asString, mtype := x.2.1.1, id := x.2.1.2 }) q

/-- External constant ao3.utils.AO3_LOGO_URL; its exact value is not in
this repository and never affects a length or a branch, so a fixed
placeholder string stands in for it. -/
def AO3_LOGO_URL : String := "ao3.utils.AO3_LOGO_URL"

/-- Icon url shared by the FFN and FP registry entries. -/
def FFN_ICON_URL : String := "https://www.fanfiction.net/static/icons3/ff-icon-128.png"

/-- The keys of STORY_WEBSITE_STORE in registration order. -/
def STORY_WEBSITE_KEYS : List String :=
  ["FFN", "FP", "AO3", "SB", "SV", "QQ", "SIYE"]

/-- The icon_url of each STORY_WEBSITE_STORE entry. -/
def siteIcon : String → String
  | "FFN" => FFN_ICON_URL
  | "FP" => FFN_ICON_URL
  | "AO3" => AO3_LOGO_URL
  | "SB" => "https://forums.spacebattles.com/data/svg/2/1/1682578744/2022_favicon_192x192.png"
  | "SV" => "https://forums.sufficientvelocity.com/favicon-96x96.png?v=69wyvmQdJN"
  | "QQ" => "https://forums.questionablequesting.com/favicon.ico"
  | "SIYE" => "https://www.siye.co.uk/siye/favicon.ico"
  | _ => ""

/-- Whether a given story_regex of a registry entry matches at a position. -/
def siteMatchAt (key : String) (s : List Char) : Bool :=
  match key with
  | "FFN" => (ffnAt s).isSome
  | "FP" => (fpAt s).isSome
  | "AO3" => (ao3At s).isSome
  | "SB" => (sbAt s).isSome
  | "SV" => (svAt s).isSome
  | "QQ" => (qqAt s).isSome
  | "SIYE" => (siyeAt s).isSome
  | _ => false

/-- re.search of the story_regex of one registry entry over a url. -/
def siteFound (key : String) (url : String) : Bool :=
  (searchIn (fun s => if siteMatchAt key s then some () else none) url).isSome

/-- Icon resolution in create_fichub_embed: the icon of the first
registry entry, in registration order, whose pattern matches the url. -/
def fichubIconUrl (url : String) : Option String :=
  ((STORY_WEBSITE_KEYS.filter fun k => siteFound k url).head?).map siteIcon

/-! ### Result renderer

Embeddings of NotFoundEmbed, create_ao3_work_embed,
create_ao3_series_embed, create_atlas_ffn_embed, create_fichub_embed
and ff_embed_factory. Each builder takes the current wall-clock value
(discord.utils.utcnow) as an explicit argument. The intermediate embed
built before the final description assignment is factored into a base
function so that the length arithmetic of the final truncation is
visible; the base contains exactly the data the source puts into the
embed before the last shorten call, including, for the series, atlas
and fichub variants, the untruncated description passed to the Embed
constructor. -/

/-- The embed produced by NotFoundEmbed with the clock at now. -/
def NotFoundEmbed (now : Nat) : Embed :=
  { title := some "No Results"
    url := none
    description := some "No results found. You may need to edit your search."
    timestamp := some now
    author := none
    fields := []
    footer := none
    isNotFoundCard := true }

/-- The embed built by create_ao3_work_embed before its description is
assigned. -/
def ao3WorkBase (work : Ao3Work) (now : Nat)
    (updated author_names fandoms categories characters : String) (a0 : Ao3Author) : Embed :=
  { title := some work.title
    url := some work.url
    description := none
    timestamp := some now
    author := some { name := author_names,
                     url := "https://archiveofourown.org/users/" ++ a0.name,
                     icon_url := some AO3_LOGO_URL }
    fields := [
      { name := "📜 Last Updated", value := updated, inline := true },
      { name := "📖 Length",
        value := pyCommaFmt work.nwords ++ " words in " ++ Nat.repr work.nchapters
          ++ " chapter(s)",
        inline := true },
      { name := "🔖 Rating: " ++ work.rating,
        value := sjoin " • " [fandoms, categories, characters], inline := false },
      { name := "📊 Stats",
        value := sjoin " • " ["**Comments:** " ++ pyCommaFmt work.ncomments,
                              "**Kudos:** " ++ pyCommaFmt work.nkudos,
                              "**Bookmarks:** " ++ pyCommaFmt work.nbookmarks,
                              "**Hits:** " ++ pyCommaFmt work.nhits],
        inline := false }]
    footer := some "A substitute for displaying AO3 information."
    isNotFoundCard := false }

/-- create_ao3_work_embed: missing date_updated renders as Unknown,
otherwise calendar date plus a completion marker; tag lists are
shortened to 100; authors are joined; the first author is read for the
author url (IndexError when absent); the summary is shortened last to
the remaining budget of 6000. -/
def create_ao3_work_embed (work : Ao3Work) (now : Nat) : Except PyExc Embed := do
  let updated := match work.date_updated with
    | some d => d.strftimeBdY ++ (if work.is_complete then " (Complete)" else "")
    | none => "Unknown"
  let author_names := sjoin ", " (work.authors.map Ao3Author.name)
  let fandoms ← shortenE (sjoin ", " work.fandoms) 100 "..."
  let categories ← shortenE (sjoin ", " work.categories) 100 "..."
  let characters ← shortenE (sjoin ", " work.characters) 100 "..."
  let a0 ← headE work.authors
  let descr ← shortenE work.summary
    (6000 - (embedLen (ao3WorkBase work now updated author_names fandoms categories characters a0) : Int))
    "..."
  Except.ok { ao3WorkBase work now updated author_names fandoms categories characters a0 with
              description := some descr }

/-- The embed built by create_ao3_series_embed before its description is
reassigned; its description is the work_links text passed to the Embed
constructor. -/
def ao3SeriesBase (series : Ao3Series) (now : Nat)
    (updated author_names work_links : String) (c0 : Ao3Author) : Embed :=
  { title := some series.name
    url := some series.url
    description := some work_links
    timestamp := some now
    author := some { name := author_names,
                     url := "https://archiveofourown.org/users/" ++ c0.name,
                     icon_url := some AO3_LOGO_URL }
    fields := [
      { name := "📜 Last Updated", value := updated, inline := true },
      { name := "📖 Length",
        value := pyCommaFmt series.nwords ++ " words in " ++ Nat.repr series.nworks
          ++ " work(s)",
        inline := true }]
    footer := some "A substitute for displaying AO3 information."
    isNotFoundCard := false }

/-- create_ao3_series_embed: the first creator is read for the author
url before anything else (IndexError when absent); falsy creator names
are filtered from the joined author names; the series description plus
a blank line is shortened to the remaining budget of 6000 (the embed
length at that point already counts the work_links description) and
prepended to the existing description. -/
def create_ao3_series_embed (series : Ao3Series) (now : Nat) : Except PyExc Embed := do
  let c0 ← headE series.creators
  let updated := match series.date_updated with
    | some d => d.strftimeBdY ++ (if series.is_complete then " (Complete)" else "")
    | none => "Unknown"
  let author_names := sjoin ", " ((series.creators.map Ao3Author.name).filter fun n => n ≠ "")
  let work_links := "📚 **Works:**\n" ++
    sjoin "\n" (series.works_list.map fun wk => "[" ++ wk.title ++ "](" ++ wk.url ++ ")")
  let series_descr ← shortenE (series.description ++ "\n\n")
    (6000 - (embedLen (ao3SeriesBase series now updated author_names work_links c0) : Int))
    "...\n\n"
  Except.ok { ao3SeriesBase series now updated author_names work_links c0 with
              description := some (series_descr ++ work_links) }

/-- The embed built by create_atlas_ffn_embed before its description is
reassigned; the untruncated description is passed to the constructor. -/
def atlasBase (story : AtlasStory) (now : Nat)
    (updated fandoms genres characters : String) : Embed :=
  { title := some story.title
    url := some story.url
    description := some story.description
    timestamp := some now
    author := some { name := story.author.name, url := story.author.url,
                     icon_url := some FFN_ICON_URL }
    fields := [
      { name := "📜 Last Updated", value := updated, inline := true },
      { name := "📖 Length",
        value := pyCommaFmt story.words ++ " words in " ++ Nat.repr story.chapters
          ++ " chapter(s)",
        inline := true },
      { name := "🔖 Rating: Fiction " ++ story.rating,
        value := sjoin " • " [fandoms, genres, characters], inline := false },
      { name := "📊 Stats",
        value := "**Reviews:** " ++ pyCommaFmt story.reviews
          ++ " • **Faves:** " ++ pyCommaFmt story.favorites
          ++ " • **Follows:** " ++ pyCommaFmt story.follows,
        inline := false }]
    footer := some "Made using iris\x27s Atlas API. Some results may be out of date or unavailable."
    isNotFoundCard := false }

/-- create_atlas_ffn_embed: the update date falls back to the published
date when updated is falsy (there is no Unknown branch here); genres are
joined with a slash; the description is shortened last against the
budget of 6000 minus the embed length, which at that point already
counts the untruncated description. -/
def create_atlas_ffn_embed (story : AtlasStory) (now : Nat) : Except PyExc Embed := do
  let updated := (match story.updated with | some d => d | none => story.published).strftimeBdY
      ++ (if story.is_complete then " (Complete)" else "")
  let fandoms ← shortenE (sjoin ", " story.fandoms) 100 "..."
  let genres ← shortenE (sjoin "/" story.genres) 100 "..."
  let characters ← shortenE (sjoin ", " story.characters) 100 "..."
  let descr ← shortenE story.description
    (6000 - (embedLen (atlasBase story now updated fandoms genres characters) : Int)) "..."
  Except.ok { atlasBase story now updated fandoms genres characters with
              description := some descr }

/-- Lookup in the fichub stats mapping, Python dict get. -/
def statLookup (stats : List (String × Nat)) (k : String) : Option Nat :=
  (stats.find? fun pr => pr.1 == k).map Prod.snd

/-- The stats line of create_fichub_embed: direct indexing (KeyError on
a missing key) for fanfiction.net urls over reviews, favorites and
follows; presence-filtered rendering for archiveofourown.org urls over
comments, kudos, bookmarks and hits; a fixed sentence otherwise. -/
def fichubStats (story : FichubStory) : Except PyExc String :=
  if pyContains "fanfiction.net" story.url then
    match statLookup story.stats "reviews", statLookup story.stats "favorites",
        statLookup story.stats "follows" with
    | some r, some fa, some fo =>
      Except.ok (sjoin " • " ["**Reviews:** " ++ pyCommaFmt r,
                              "**Favorites:** " ++ pyCommaFmt fa,
                              "**Follows:** " ++ pyCommaFmt fo])
    | _, _, _ => Except.error PyExc.keyError
  else if pyContains "archiveofourown.org" story.url then
    Except.ok (sjoin " • " (["comments", "kudos", "bookmarks", "hits"].filterMap fun nm =>
      (statLookup story.stats nm).map fun v =>
        "**" ++ pyCapitalize nm ++ ":** " ++ pyCommaFmt v))
  else Except.ok "No stats available at this time."

/-- The embed built by create_fichub_embed before its description is
reassigned; the untruncated description is passed to the constructor. -/
def fichubBase (story : FichubStory) (now : Nat)
    (updated fandoms categories characters stats_str : String) : Embed :=
  { title := some story.title
    url := some story.url
    description := some story.description
    timestamp := some now
    author := some { name := story.author.name, url := story.author.url,
                     icon_url := fichubIconUrl story.url }
    fields := [
      { name := "📜 Last Updated",
        value := updated ++ " (" ++ pyCapitalize story.status ++ ")", inline := true },
      { name := "📖 Length",
        value := pyCommaFmt story.words ++ " words in " ++ Nat.repr story.chapters
          ++ " chapter(s)",
        inline := true },
      { name := "🔖 Rating: " ++ story.rating,
        value := sjoin " • " [fandoms, categories, characters], inline := false },
      { name := "📊 Stats", value := stats_str, inline := false }]
    footer := some "Made using the FicHub API. Some results may be out of date or unavailable."
    isNotFoundCard := false }

/-- create_fichub_embed: the update date is read unconditionally and the
capitalized status is always appended in parentheses; categories come
from the more_meta mapping; the stats line is site-dependent; the
description is shortened last against the budget of 6000 minus the
embed length, which already counts the untruncated description. -/
def create_fichub_embed (story : FichubStory) (now : Nat) : Except PyExc Embed := do
  let updated := story.updated.strftimeBdY
  let fandoms ← shortenE (sjoin ", " story.fandoms) 100 "..."
  let categories ← shortenE (sjoin ", " story.more_meta_category) 100 "..."
  let characters ← shortenE (sjoin ", " story.characters) 100 "..."
  let stats_str ← fichubStats story
  let descr ← shortenE story.description
    (6000 - (embedLen (fichubBase story now updated fandoms categories characters stats_str) : Int))
    "..."
  Except.ok { fichubBase story now updated fandoms categories characters stats_str with
              description := some descr }

/-- ff_embed_factory: dispatch on the concrete type of the story data,
defaulting to NotFoundEmbed for an absent value. -/
def ff_embed_factory (story_data : Option StoryData) (now : Nat) : Except PyExc Embed :=
  match story_data with
  | some (StoryData.atlas s) => create_atlas_ffn_embed s now
  | some (StoryData.fichub s) => create_fichub_embed s now
  | some (StoryData.ao3Work w) => create_ao3_work_embed w now
  | some (StoryData.ao3Series s) => create_ao3_series_embed s now
  | none => Except.ok (NotFoundEmbed now)

/-! ### Memoized renderer

The four create functions carry a functools.cache decorator: per
function, a process-global mapping from argument to the embed built on
first call. The cache is modelled as explicit state threaded through a
cached factory; a raised exception is not cached, matching
functools.cache. NotFoundEmbed instantiation is not cached. -/

/-- One memoization table: argument paired with the cached embed. -/
def cachedBuild {α : Type} [DecidableEq α] (cache : List (α × Embed))
    (build : α → Nat → Except PyExc Embed) (x : α) (now : Nat) :
    List (α × Embed) × Except PyExc Embed :=
  match cache.find? (fun pr => decide (pr.1 = x)) with
  | some pr => (cache, Except.ok pr.2)
  | none =>
    match build x now with
    | Except.ok e => (cache ++ [(x, e)], Except.ok e)
    | Except.error err => (cache, Except.error err)

/-- The four functools.cache tables, one per decorated builder. -/
structure RenderCache where
  ao3WorkTab : List (Ao3Work × Embed)
  ao3SeriesTab : List (Ao3Series × Embed)
  atlasTab : List (AtlasStory × Embed)
  fichubTab : List (FichubStory × Embed)
deriving DecidableEq

/-- The empty render cache of a fresh process. -/
def emptyRenderCache : RenderCache :=
  { ao3WorkTab := [], ao3SeriesTab := [], atlasTab := [], fichubTab := [] }

/-- ff_embed_factory with the functools caches made explicit: the four
typed builders go through their memoization tables, while the
NotFoundEmbed default is freshly constructed on every call with the
current clock value. -/
def ff_embed_factory_cached (s : RenderCache) (story_data : Option StoryData) (now : Nat) :
    RenderCache × Except PyExc Embed :=
  match story_data with
  | some (StoryData.atlas st) =>
    let r := cachedBuild s.atlasTab create_atlas_ffn_embed st now
    ({ s with atlasTab := r.1 }, r.2)
  | some (StoryData.fichub st) =>
    let r := cachedBuild s.fichubTab create_fichub_embed st now
    ({ s with fichubTab := r.1 }, r.2)
  | some (StoryData.ao3Work w) =>
    let r := cachedBuild s.ao3WorkTab create_ao3_work_embed w now
    ({ s with ao3WorkTab := r.1 }, r.2)
  | some (StoryData.ao3Series st) =>
    let r := cachedBuild s.ao3SeriesTab create_ao3_series_embed st now
    ({ s with ao3SeriesTab := r.1 }, r.2)
  | none => (s, Except.ok (NotFoundEmbed now))

/-! ### Provider clients and resolution engine

The three upstream clients (ao3.Client, atlas_api.Client,
fichub_api.Client) are black-box async services; they are modelled as a
record of functions, each returning either a value or the exception type
of that provider (ao3.AO3Exception, atlas_api.AtlasException,
fichub_api.FicHubException — each client raises its own type, which is
exactly what the except clauses in the source catch). Single-item
lookups return an optional record, covering providers that signal an
absent item by returning None instead of raising. Each search function
additionally returns the list of client calls it performed, in order,
so that fallback-order properties are statable. -/

/-- The failure type of atlas_api (AtlasException). -/
inductive AtlasError
  | exc
deriving DecidableEq, Repr

/-- The failure type of fichub_api (FicHubException). -/
inductive FicHubError
  | exc
deriving DecidableEq, Repr

/-- The failure type of the ao3 library (AO3Exception). -/
inductive AO3Error
  | exc
deriving DecidableEq, Repr

/-- The behavior of the three provider clients, as oracles. -/
structure Clients where
  atlas_get_story : Nat → Except AtlasError (Option AtlasStory)
  atlas_get_bulk : String → Except AtlasError (List AtlasStory)
  fichub_get_story : String → Except FicHubError (Option FichubStory)
  ao3_get_series : Nat → Except AO3Error (Option Ao3Series)
  ao3_get_work : Nat → Except AO3Error (Option Ao3Work)
  ao3_search_works : String → Except AO3Error (List Ao3Work)

/-- One performed client call, for fallback-order bookkeeping. -/
inductive Call
  | atlasGetStory (fic_id : Nat)
  | atlasGetBulk (title : String)
  | fichubGetStory (url : String)
  | ao3GetSeries (series_id : Nat)
  | ao3GetWork (work_id : Nat)
  | ao3SearchWorks (q : String)
deriving DecidableEq, Repr

/-- WebficSearcherBot.search_ao3: an AO3-pattern url routes on the
captured type — series goes to the ao3 client by id with AO3Exception
caught to None; works goes to the fichub client by the matched url
first, falling back to the ao3 client by id on FicHubException, with a
second AO3Exception caught to None — while a non-url query runs a title
search whose exceptions are not caught, taking the first result. -/
def search_ao3 (c : Clients) (name_or_url : String) :
    List Call × Except PyExc (Option StoryData) :=
  match ao3Search name_or_url with
  | some m =>
    if m.mtype = "series" then
      match c.ao3_get_series (pyInt m.id) with
      | Except.ok os => ([Call.ao3GetSeries (pyInt m.id)], Except.ok (os.map StoryData.ao3Series))
      | Except.error _ => ([Call.ao3GetSeries (pyInt m.id)], Except.ok none)
    else
      match c.fichub_get_story m.matched with
      | Except.ok os => ([Call.fichubGetStory m.matched], Except.ok (os.map StoryData.fichub))
      | Except.error _ =>
        match c.ao3_get_work (pyInt m.id) with
        | Except.ok ow =>
          ([Call.fichubGetStory m.matched, Call.ao3GetWork (pyInt m.id)],
           Except.ok (ow.map StoryData.ao3Work))
        | Except.error _ =>
          ([Call.fichubGetStory m.matched, Call.ao3GetWork (pyInt m.id)], Except.ok none)
  | none =>
    match c.ao3_search_works name_or_url with
    | Except.ok results =>
      ([Call.ao3SearchWorks name_or_url], Except.ok (results.head?.map StoryData.ao3Work))
    | Except.error _ =>
      ([Call.ao3SearchWorks name_or_url], Except.error PyExc.ao3Exc)

/-- The title branch of search_ffn: bulk metadata lookup with limit one;
its exceptions are not caught. -/
def search_ffn_bulk (c : Clients) (name_or_url : String) :
    List Call × Except PyExc (Option StoryData) :=
  match c.atlas_get_bulk name_or_url with
  | Except.ok results =>
    ([Call.atlasGetBulk name_or_url], Except.ok (results.head?.map StoryData.atlas))
  | Except.error _ =>
    ([Call.atlasGetBulk name_or_url], Except.error PyExc.atlasExc)

/-- WebficSearcherBot.search_ffn: a truthy extracted fic id (the walrus
test is truthiness, so an id of zero falls through to the title branch)
goes to the atlas client, falling back to the fichub client with the
original query on AtlasException, with a second FicHubException caught
to None; otherwise the bulk title search runs uncaught. The id
extractor atlas_api.extract_fic_id lives outside this repository and is
passed as an oracle. -/
def search_ffn (c : Clients) (extract_fic_id : String → Option Nat) (name_or_url : String) :
    List Call × Except PyExc (Option StoryData) :=
  match extract_fic_id name_or_url with
  | some fic_id =>
    if fic_id ≠ 0 then
      match c.atlas_get_story fic_id with
      | Except.ok os => ([Call.atlasGetStory fic_id], Except.ok (os.map StoryData.atlas))
      | Except.error _ =>
        match c.fichub_get_story name_or_url with
        | Except.ok os =>
          ([Call.atlasGetStory fic_id, Call.fichubGetStory name_or_url],
           Except.ok (os.map StoryData.fichub))
        | Except.error _ =>
          ([Call.atlasGetStory fic_id, Call.fichubGetStory name_or_url], Except.ok none)
    else search_ffn_bulk c name_or_url
  | none => search_ffn_bulk c name_or_url

/-- WebficSearcherBot.search_other: a single fichub lookup with no
try/except around it, so FicHubException propagates to the caller. -/
def search_other (c : Clients) (url : String) :
    List Call × Except PyExc (Option StoryData) :=
  match c.fichub_get_story url with
  | Except.ok os => ([Call.fichubGetStory url], Except.ok (os.map StoryData.fichub))
  | Except.error _ => ([Call.fichubGetStory url], Except.error PyExc.fichubExc)

/-- One iteration of the loop body of get_ff_data_from_links: an FFN
match calls the atlas client directly (no try/except), an AO3 match
goes through search_ao3, and any other recognized site goes through
search_other. -/
def resolve_one (c : Clients) (m : SiteMatch) : List Call × Except PyExc (Option StoryData) :=
  if m.site = "FFN" then
    match c.atlas_get_story (pyInt (m.ffn_id.getD "")) with
    | Except.ok os =>
      ([Call.atlasGetStory (pyInt (m.ffn_id.getD ""))], Except.ok (os.map StoryData.atlas))
    | Except.error _ =>
      ([Call.atlasGetStory (pyInt (m.ffn_id.getD ""))], Except.error PyExc.atlasExc)
  else if m.site = "AO3" then search_ao3 c m.matched
  else search_other c m.matched

/-- Drive the async generator over a list of detected matches: each
successful iteration yields its story data (possibly None); the first
uncaught exception terminates the generator, discarding the remaining
matches. Returns the yielded prefix and the terminating exception, if
any. -/
def get_ff_go (c : Clients) : List SiteMatch → List (Option StoryData) × Option PyExc
  | [] => ([], none)
  | m :: ms =>
    match (resolve_one c m).2 with
    | Except.ok d =>
      let rest := get_ff_go c ms
      (d :: rest.1, rest.2)
    | Except.error e => ([], some e)

/-- WebficSearcherBot.get_ff_data_from_links over a text blob. -/
def get_ff_data_from_links (c : Clients) (text : String) :
    List (Option StoryData) × Option PyExc :=
  get_ff_go c (finditer text)

/-! ### Command surface

Embeddings of the wf_search slash command and the on_message listener.
Sending a message to the channel is modelled by collecting the sent
embeds in order; an uncaught exception is the second component. -/

/-- The platform literal of the wf_search command. -/
inductive Platform
  | ao3
  | ffn
  | other
deriving DecidableEq, Repr

/-- The dispatch at the top of wf_search: one resolution entry point per
family. -/
def resolve_by_family (c : Clients) (extract_fic_id : String → Option Nat)
    (platform : Platform) (name_or_url : String) : Except PyExc (Option StoryData) :=
  match platform with
  | Platform.ao3 => (search_ao3 c name_or_url).2
  | Platform.ffn => (search_ffn c extract_fic_id name_or_url).2
  | Platform.other => (search_other c name_or_url).2

/-- The wf_search command: resolve, render through ff_embed_factory and
send the single resulting embed; any uncaught exception from resolution
or rendering escapes and nothing is sent. -/
def wf_search (c : Clients) (extract_fic_id : String → Option Nat)
    (platform : Platform) (name_or_url : String) (now : Nat) :
    List Embed × Option PyExc :=
  match resolve_by_family c extract_fic_id platform name_or_url with
  | Except.error e => ([], some e)
  | Except.ok d =>
    match ff_embed_factory d now with
    | Except.error e => ([], some e)
    | Except.ok em => ([em], none)

/-- The send loop inside on_message: for each yielded story datum, a
None is skipped; otherwise the embed is built and sent unless it is a
NotFoundEmbed; an exception from the builder aborts the loop. -/
def sendLoop (now : Nat) : List (Option StoryData) → List Embed × Option PyExc
  | [] => ([], none)
  | none :: rest => sendLoop now rest
  | some d :: rest =>
    match ff_embed_factory (some d) now with
    | Except.error e => ([], some e)
    | Except.ok em =>
      let tail := sendLoop now rest
      if em.isNotFoundCard then tail else (em :: tail.1, tail.2)

/-- WebficSearcherBot.on_message: messages from the bot itself or
outside a guild are ignored; otherwise the autoresponse
channel set of the guild (the materialized result of the settings query, passed in
as cache) must be non-empty, contain the location of the message, and the
combined site regex must hit the content; then every link is resolved
and each non-None result that does not render to the NotFound card is
sent. An exception from the send loop preempts one from the
generator. -/
def on_message (c : Clients) (cache : List (Nat × Nat)) (selfAuthored : Bool)
    (guild : Option Nat) (channel : Nat) (content : String) (now : Nat) :
    List Embed × Option PyExc :=
  if selfAuthored then ([], none)
  else match guild with
  | none => ([], none)
  | some g =>
    if !cache.isEmpty && decide ((g, channel) ∈ cache) && !(finditer content).isEmpty then
      let gen := get_ff_data_from_links c content
      let sent := sendLoop now gen.1
      (sent.1, match sent.2 with | some e => some e | none => gen.2)
    else ([], none)

/-! ### Settings store

Embedding of the SQL layer. The only table ever created is
webfic_autoresponse_settings (INITIALIZATION_STATEMENT), with primary
key (guild_id, channel_id) and WITHOUT ROWID, so rows are kept in
primary-key order. The DELETE statements in the source name a different
table: REMOVE_GUILD_CHANNEL_STATEMENT is
DELETE FROM fanfic_autoresponse_settings WHERE channel_id = ?
and CLEAR_GUILD_CHANNELS_STATEMENT is
DELETE FROM fanfic_autoresponse_settings WHERE guild_id = ?.
A statement against an absent table fails to prepare with an SQLite
no-such-table error; the with-connection transaction then rolls back,
modelled by returning the error and leaving the state unchanged.
executemany is repeated execution, one run per binding row; with an
empty sequence nothing is executed. REMOVE_GUILD_CHANNEL_STATEMENT has
a single placeholder while each AutoresponseLocation binds two values,
which is a bindings-count error if the table ever existed. -/

/-- AutoresponseLocation: guild id and channel id. -/
structure AutoresponseLocation where
  guild_id : Nat
  channel_id : Nat
deriving DecidableEq, Repr

/-- Database state: each existing table with its rows. -/
abbrev DB : Type := List (String × List AutoresponseLocation)

/-- Errors surfaced by the store layer. -/
inductive DbError
  | noSuchTable (t : String)
  | bindingsError
  | indexError
deriving DecidableEq, Repr

/-- The rows of a table, or none when the table does not exist. -/
def getTable (db : DB) (t : String) : Option (List AutoresponseLocation) :=
  ((db : List (String × List AutoresponseLocation)).find? fun pr => pr.1 == t).map Prod.snd

/-- Replace the rows of an existing table. -/
def setTable (db : DB) (t : String) (rows : List AutoresponseLocation) : DB :=
  (db : List (String × List AutoresponseLocation)).map fun pr =>
    if pr.1 == t then (pr.1, rows) else pr

/-- Primary-key order on rows, (guild_id, channel_id) lexicographic. -/
def rowLt (a b : AutoresponseLocation) : Bool :=
  a.guild_id < b.guild_id || (a.guild_id == b.guild_id && a.channel_id < b.channel_id)

/-- Insert a row keeping primary-key order, as a WITHOUT ROWID table
stores it. -/
def insertSorted (r : AutoresponseLocation) : List AutoresponseLocation → List AutoresponseLocation
  | [] => [r]
  | x :: xs => if rowLt r x then r :: x :: xs else x :: insertSorted r xs

/-- INSERT ... ON CONFLICT (guild_id, channel_id) DO NOTHING into
webfic_autoresponse_settings. -/
def execInsertChannel (db : DB) (r : AutoresponseLocation) : Except DbError DB :=
  match getTable db "webfic_autoresponse_settings" with
  | none => Except.error (DbError.noSuchTable "webfic_autoresponse_settings")
  | some rows =>
    if r ∈ rows then Except.ok db
    else Except.ok (setTable db "webfic_autoresponse_settings" (insertSorted r rows))

/-- One run of REMOVE_GUILD_CHANNEL_STATEMENT: the statement targets
fanfic_autoresponse_settings, which is never created, so preparation
fails; were the table present, binding a two-field row against the
single placeholder would be a bindings-count error. -/
def execRemoveGuildChannel (db : DB) (_r : AutoresponseLocation) : Except DbError DB :=
  match getTable db "fanfic_autoresponse_settings" with
  | none => Except.error (DbError.noSuchTable "fanfic_autoresponse_settings")
  | some _ => Except.error DbError.bindingsError

/-- executemany of the insert statement. -/
def execManyInsert (db : DB) : List AutoresponseLocation → Except DbError DB
  | [] => Except.ok db
  | l :: ls =>
    match execInsertChannel db l with
    | Except.ok db2 => execManyInsert db2 ls
    | Except.error e => Except.error e

/-- executemany of the remove statement. -/
def execManyRemove (db : DB) : List AutoresponseLocation → Except DbError DB
  | [] => Except.ok db
  | l :: ls =>
    match execRemoveGuildChannel db l with
    | Except.ok db2 => execManyRemove db2 ls
    | Except.error e => Except.error e

/-- SELECT with a row predicate against a named table. -/
def selectWhere (db : DB) (t : String) (p : AutoresponseLocation → Bool) :
    Except DbError (List AutoresponseLocation) :=
  match getTable db t with
  | none => Except.error (DbError.noSuchTable t)
  | some rows => Except.ok (rows.filter p)

/-- The module function _setup_db: run INITIALIZATION_STATEMENT,
creating webfic_autoresponse_settings if it does not exist. -/
def _setup_db (db : DB) : DB :=
  match getTable db "webfic_autoresponse_settings" with
  | some _ => db
  | none => ("webfic_autoresponse_settings", []) :: db

/-- The module function _add: executemany the insert over the batch,
then read locations[0] (IndexError on an empty batch) and return the
rows selected for that guild. The updated state is returned alongside;
an error leaves the state unchanged (transaction rollback). -/
def _add (db : DB) (locations : List AutoresponseLocation) :
    Except DbError (DB × List AutoresponseLocation) :=
  match execManyInsert db locations with
  | Except.error e => Except.error e
  | Except.ok db2 =>
    match locations with
    | [] => Except.error DbError.indexError
    | l0 :: _ =>
      match selectWhere db2 "webfic_autoresponse_settings" (fun r => r.guild_id == l0.guild_id) with
      | Except.error e => Except.error e
      | Except.ok rows => Except.ok (db2, rows)

/-- The module function _drop: executemany the remove statement over the
batch, then read locations[0] and select the rows of that guild. -/
def _drop (db : DB) (locations : List AutoresponseLocation) :
    Except DbError (DB × List AutoresponseLocation) :=
  match execManyRemove db locations with
  | Except.error e => Except.error e
  | Except.ok db2 =>
    match locations with
    | [] => Except.error DbError.indexError
    | l0 :: _ =>
      match selectWhere db2 "webfic_autoresponse_settings" (fun r => r.guild_id == l0.guild_id) with
      | Except.error e => Except.error e
      | Except.ok rows => Except.ok (db2, rows)

/-- The module function _clear: one run of
CLEAR_GUILD_CHANNELS_STATEMENT, which targets the absent table
fanfic_autoresponse_settings. -/
def _clear (db : DB) (guild_id : Nat) : Except DbError DB :=
  match getTable db "fanfic_autoresponse_settings" with
  | none => Except.error (DbError.noSuchTable "fanfic_autoresponse_settings")
  | some rows =>
    Except.ok (setTable db "fanfic_autoresponse_settings"
      (rows.filter fun r => !(r.guild_id == guild_id)))

/-- The module function _query specialised to SELECT_BY_GUILD_STATEMENT,
as used by get_guild_autoresponse_channels. -/
def select_by_guild (db : DB) (guild_id : Nat) : Except DbError (List AutoresponseLocation) :=
  selectWhere db "webfic_autoresponse_settings" (fun r => r.guild_id == guild_id)

/-! ### Paginated browser

Embedding of AO3SeriesView: the state is the series and the current
page index (a Python int). total_pages is the length of works_list.
disable_page_buttons disables previous exactly at index zero and next
exactly at index total_pages minus one. The select offers values zero
through the number of works. format_page renders the series overview at
index zero and otherwise the work at index minus one, with Python list
indexing. Pressing a disabled button is impossible, so a press is a
no-op when the button is disabled. -/

/-- The mutable state of AO3SeriesView. -/
structure AO3SeriesView where
  author_id : Nat
  series : Ao3Series
  page_index : Int
deriving DecidableEq, Repr

/-- The view constructed by AO3SeriesView.__init__: index zero. -/
def AO3SeriesView.init (author_id : Nat) (series : Ao3Series) : AO3SeriesView :=
  { author_id := author_id, series := series, page_index := 0 }

/-- The total_pages property: the length of works_list. -/
def total_pages (v : AO3SeriesView) : Nat :=
  v.series.works_list.length

/-- The disabled flag of the previous button after disable_page_buttons. -/
def turn_to_previous_disabled (v : AO3SeriesView) : Bool :=
  v.page_index == 0

/-- The disabled flag of the next button after disable_page_buttons. -/
def turn_to_next_disabled (v : AO3SeriesView) : Bool :=
  v.page_index == (total_pages v : Int) - 1

/-- A press of the next button: increments the index unless disabled. -/
def turn_to_next (v : AO3SeriesView) : AO3SeriesView :=
  if turn_to_next_disabled v then v else { v with page_index := v.page_index + 1 }

/-- A press of the previous button: decrements the index unless disabled. -/
def turn_to_previous (v : AO3SeriesView) : AO3SeriesView :=
  if turn_to_previous_disabled v then v else { v with page_index := v.page_index - 1 }

/-- A selection in the dropdown: the chosen option value becomes the
index (the options are the strings zero through the number of works). -/
def select_page (v : AO3SeriesView) (j : Nat) : AO3SeriesView :=
  { v with page_index := (j : Int) }

/-- AO3SeriesView.format_page: index zero renders the series embed,
any other index renders the work at index minus one. -/
def format_page (v : AO3SeriesView) (now : Nat) : Except PyExc Embed :=
  if v.page_index ≠ 0 then
    match pyGet v.series.works_list (v.page_index - 1) with
    | Except.error e => Except.error e
    | Except.ok w => create_ao3_work_embed w now
  else create_ao3_series_embed v.series now

/-! ### Concrete sample data

Small concrete records and client oracles used by the witness and
counterexample theorems. -/

/-- A small concrete AO3 work. -/
def sampleWork : Ao3Work :=
  { title := "The Work", url := "https://archiveofourown.org/works/12345"
    date_updated := some { year := 2021, month := 2, day := 3 }
    is_complete := true
    authors := [{ name := "alice" }]
    fandoms := ["Fandom One"], categories := ["Gen"], characters := ["Ann"]
    ncomments := 12, nkudos := 345, nbookmarks := 6, nhits := 7890
    nwords := 51234, nchapters := 7, rating := "General Audiences"
    summary := "A short summary of the work." }

/-- A second concrete AO3 work. -/
def sampleWork2 : Ao3Work :=
  { sampleWork with title := "The Second Work", summary := "Another summary." }

/-- A third concrete AO3 work. -/
def sampleWork3 : Ao3Work :=
  { sampleWork with title := "The Third Work", date_updated := none, is_complete := false }

/-- A small concrete AO3 series with one work. -/
def sampleSeries : Ao3Series :=
  { name := "The Series", url := "https://archiveofourown.org/series/99"
    date_updated := none, is_complete := false
    creators := [{ name := "bob" }]
    description := "A series description."
    nwords := 60000, nworks := 1, works_list := [sampleWork] }

/-- A concrete AO3 series with three works, for the browser scenario. -/
def sampleSeries3 : Ao3Series :=
  { sampleSeries with nworks := 3, works_list := [sampleWork, sampleWork2, sampleWork3] }

/-- A concrete atlas story whose updated timestamp is absent. -/
def sampleAtlasNoUpdated : AtlasStory :=
  { title := "An FFN Story", url := "https://www.fanfiction.net/s/4242"
    updated := none, published := { year := 2020, month := 1, day := 1 }
    is_complete := false
    author := { name := "ann", url := "https://www.fanfiction.net/u/1" }
    fandoms := ["Some Fandom"], genres := ["Drama"], characters := ["Zed"]
    reviews := 3, favorites := 4, follows := 5
    words := 1000, chapters := 2, rating := "T"
    description := "An FFN description." }

/-- A concrete fichub story. -/
def sampleFichubStory : FichubStory :=
  { title := "A FicHub Story", url := "https://example.org/stories/8"
    updated := { year := 2019, month := 5, day := 6 }
    status := "ongoing"
    author := { name := "joe", url := "https://example.org/u/joe" }
    fandoms := ["F"], more_meta_category := [], characters := []
    stats := [], words := 2500, chapters := 3, rating := "T"
    description := "A FicHub description." }

/-- Clients whose every call raises the exception type of that provider. -/
def cBothFail : Clients :=
  { atlas_get_story := fun _ => Except.error AtlasError.exc
    atlas_get_bulk := fun _ => Except.error AtlasError.exc
    fichub_get_story := fun _ => Except.error FicHubError.exc
    ao3_get_series := fun _ => Except.error AO3Error.exc
    ao3_get_work := fun _ => Except.error AO3Error.exc
    ao3_search_works := fun _ => Except.error AO3Error.exc }

/-- Clients whose every call answers successfully with no results. -/
def cNotFound : Clients :=
  { atlas_get_story := fun _ => Except.ok none
    atlas_get_bulk := fun _ => Except.ok []
    fichub_get_story := fun _ => Except.ok none
    ao3_get_series := fun _ => Except.ok none
    ao3_get_work := fun _ => Except.ok none
    ao3_search_works := fun _ => Except.ok [] }

/-! ### Claims about the settings store -/

/-- C1: the claimed round trip fails on the code. On the initialized
store, add of the two locations for guild 1 succeeds and returns
exactly those two rows, but clear(1) does not empty the set: the
CLEAR_GUILD_CHANNELS_STATEMENT and REMOVE_GUILD_CHANNEL_STATEMENT
target the table fanfic_autoresponse_settings, which the
initialization statement never creates (it creates
webfic_autoresponse_settings), so both operations raise an SQLite
no-such-table error and delete nothing. -/
theorem c1_delete_statements_target_missing_table :
    _add (_setup_db []) [{ guild_id := 1, channel_id := 10 }, { guild_id := 1, channel_id := 11 }]
      = Except.ok ([("webfic_autoresponse_settings",
          [{ guild_id := 1, channel_id := 10 }, { guild_id := 1, channel_id := 11 }])],
          [{ guild_id := 1, channel_id := 10 }, { guild_id := 1, channel_id := 11 }])
    ∧ _clear [("webfic_autoresponse_settings",
          [{ guild_id := 1, channel_id := 10 }, { guild_id := 1, channel_id := 11 }])] 1
      = Except.error (DbError.noSuchTable "fanfic_autoresponse_settings")
    ∧ _drop [("webfic_autoresponse_settings",
          [{ guild_id := 1, channel_id := 10 }, { guild_id := 1, channel_id := 11 }])]
          [{ guild_id := 1, channel_id := 10 }]
      = Except.error (DbError.noSuchTable "fanfic_autoresponse_settings")
    ∧ select_by_guild [("webfic_autoresponse_settings",
          [{ guild_id := 1, channel_id := 10 }, { guild_id := 1, channel_id := 11 }])] 1
      = Except.ok [{ guild_id := 1, channel_id := 10 }, { guild_id := 1, channel_id := 11 }] := by
  refine ⟨by decide, by decide, by decide, by decide⟩

/-- C9: the batch settings operations require a non-empty batch: on an
empty locations sequence both _add and _drop run their executemany over
nothing and then read locations[0], raising an unguarded IndexError,
for every store state. -/
theorem c9_empty_batch_raises_index_error (db : DB) :
    _add db [] = Except.error DbError.indexError
    ∧ _drop db [] = Except.error DbError.indexError := by
  exact ⟨rfl, rfl⟩

/-! ### Claims about the paginated browser -/

/-- C3: the claimed navigation clamping fails on the code. With the
three-work series, four presses of next from index zero reach index 2,
not 3, because disable_page_buttons disables next at index
total_pages - 1 = 2 rather than at index N = 3; the press sequence is
1, 2, 2, 2 instead of the claimed 1, 2, 3, 3. Meanwhile index 3 is
reachable through the dropdown, where the next button is still enabled;
pressing it moves to index 4 and format_page raises IndexError reading
works_list[3]. The previous button is disabled exactly at index zero as
claimed. -/
theorem c3_next_button_disabled_one_page_early :
    (turn_to_next (AO3SeriesView.init 1 sampleSeries3)).page_index = 1
    ∧ (turn_to_next (turn_to_next (AO3SeriesView.init 1 sampleSeries3))).page_index = 2
    ∧ (turn_to_next (turn_to_next (turn_to_next
        (AO3SeriesView.init 1 sampleSeries3)))).page_index = 2
    ∧ (turn_to_next (turn_to_next (turn_to_next (turn_to_next
        (AO3SeriesView.init 1 sampleSeries3))))).page_index = 2
    ∧ total_pages (AO3SeriesView.init 1 sampleSeries3) = 3
    ∧ turn_to_next_disabled (select_page (AO3SeriesView.init 1 sampleSeries3) 2) = true
    ∧ turn_to_next_disabled (select_page (AO3SeriesView.init 1 sampleSeries3) 3) = false
    ∧ (turn_to_next (select_page (AO3SeriesView.init 1 sampleSeries3) 3)).page_index = 4
    ∧ format_page (turn_to_next (select_page (AO3SeriesView.init 1 sampleSeries3) 3)) 0
        = Except.error PyExc.indexError
    ∧ turn_to_previous_disabled (AO3SeriesView.init 1 sampleSeries3) = true
    ∧ turn_to_previous_disabled (select_page (AO3SeriesView.init 1 sampleSeries3) 1) = false := by
  refine ⟨by decide, by decide, by decide, by decide, by decide, by decide, by decide,
    by decide, by decide, by decide, by decide⟩

/-! ### Claims about error containment in the resolution engine -/

theorem get_ff_go_len (c : Clients) (ms : List SiteMatch) :
    ((get_ff_go c ms).2 = none → (get_ff_go c ms).1.length = ms.length)
    ∧ ∀ ex, (get_ff_go c ms).2 = some ex → (get_ff_go c ms).1.length < ms.length := by
  induction ms with
  | nil => simp [get_ff_go]
  | cons m ms ih =>
    cases hr : (resolve_one c m).2 with
    | ok d =>
      constructor
      · intro h2
        have hl := ih.1 (by simpa [get_ff_go, hr] using h2)
        simp [get_ff_go, hr, hl]
      · intro ex h2
        have hl := ih.2 ex (by simpa [get_ff_go, hr] using h2)
        simp only [get_ff_go, hr, List.length_cons, List.length]
        omega
    | error e =>
      constructor
      · intro h2
        simp [get_ff_go, hr] at h2
      · intro ex _
        simp [get_ff_go, hr]

/-- C2 counterexample: a provider failure does escape the resolution
engine. With clients that raise, search_other propagates the fichub
exception to its caller, and get_ff_data_from_links on a text with one
detected FFN link aborts with the atlas exception instead of yielding a
null entry aligned with the single match. -/
theorem c2_counterexample :
    (search_other cBothFail "https://example.org/a").2 = Except.error PyExc.fichubExc
    ∧ get_ff_data_from_links cBothFail "fanfiction.net/s/1" = ([], some PyExc.atlasExc)
    ∧ (finditer "fanfiction.net/s/1").length = 1 := by
  refine ⟨by decide, by decide, by decide⟩

/-- C2 amended: provider failures are caught only inside the url
branches of search_ao3 and the id branch of search_ffn — for an
AO3-pattern query search_ao3 always returns, and for a truthy extracted
id search_ffn always returns. By contrast search_other propagates a
fichub failure, search_ao3 propagates an ao3 failure from its
title-search branch, and the batch get_ff_data_from_links does not
isolate per-match failures: it yields exactly one entry per detected
match only when no exception occurred, and an exception terminates the
batch with fewer entries than matches. -/
theorem c2_failure_containment_amended :
    (∀ (c : Clients) (q : String) (m : AO3UrlMatch), ao3Search q = some m →
      ∃ v, (search_ao3 c q).2 = Except.ok v)
    ∧ (∀ (c : Clients) (x : String → Option Nat) (q : String) (i : Nat),
        x q = some i → i ≠ 0 → ∃ v, (search_ffn c x q).2 = Except.ok v)
    ∧ (∀ (c : Clients) (u : String), c.fichub_get_story u = Except.error FicHubError.exc →
        (search_other c u).2 = Except.error PyExc.fichubExc)
    ∧ (∀ (c : Clients) (q : String), ao3Search q = none →
        c.ao3_search_works q = Except.error AO3Error.exc →
        (search_ao3 c q).2 = Except.error PyExc.ao3Exc)
    ∧ (∀ (c : Clients) (t : String),
        ((get_ff_data_from_links c t).2 = none →
          (get_ff_data_from_links c t).1.length = (finditer t).length)
        ∧ ∀ ex, (get_ff_data_from_links c t).2 = some ex →
          (get_ff_data_from_links c t).1.length < (finditer t).length) := by
  refine ⟨?_, ?_, ?_, ?_, ?_⟩
  · intro c q m hm
    simp only [search_ao3, hm]
    split
    · cases hs : c.ao3_get_series (pyInt m.id) <;> simp [hs]
    · cases hf : c.fichub_get_story m.matched with
      | ok os => simp [hf]
      | error e => cases hw : c.ao3_get_work (pyInt m.id) <;> simp [hf, hw]
  · intro c x q i hx hi
    simp only [search_ffn, hx]
    split
    · cases ha : c.atlas_get_story i with
      | ok os => simp [ha]
      | error e => cases hf : c.fichub_get_story q <;> simp [ha, hf]
    · rename_i h0
      exact absurd hi h0
  · intro c u hf
    simp [search_other, hf]
  · intro c q hq hs
    simp [search_ao3, hq, hs]
  · intro c t
    exact get_ff_go_len c (finditer t)

/-- C2 witness: the amended theorem applied at concrete inputs — the
propagation conclusions at the failing clients. -/
theorem c2_witness :
    (search_other cBothFail "https://example.org/w").2 = Except.error PyExc.fichubExc
    ∧ (search_ao3 cBothFail "no link here").2 = Except.error PyExc.ao3Exc := by
  exact ⟨c2_failure_containment_amended.2.2.1 cBothFail "https://example.org/w" (by decide),
         c2_failure_containment_amended.2.2.2.1 cBothFail "no link here" (by decide) (by decide)⟩

/-- C4: family-B fallback policy in search_ffn. When a truthy numeric id
is extracted, a successful atlas answer — including an empty one, which
becomes NotFound — ends the chain with only the atlas call performed;
the fichub client is invoked exactly when the atlas call raised; and
when both clients raise, the result is Ok none, not an exception. When
no truthy id is extracted, the fichub client is never invoked. -/
theorem c4_ffn_fallback_policy (c : Clients) (x : String → Option Nat) (q : String) :
    (∀ i, x q = some i → i ≠ 0 →
      ((∀ v, c.atlas_get_story i = Except.ok v →
          (search_ffn c x q).1 = [Call.atlasGetStory i]
          ∧ (search_ffn c x q).2 = Except.ok (v.map StoryData.atlas))
       ∧ (c.atlas_get_story i = Except.error AtlasError.exc →
          (search_ffn c x q).1 = [Call.atlasGetStory i, Call.fichubGetStory q])
       ∧ (c.atlas_get_story i = Except.error AtlasError.exc →
          c.fichub_get_story q = Except.error FicHubError.exc →
          (search_ffn c x q).2 = Except.ok none)))
    ∧ (∀ u, x q = none → Call.fichubGetStory u ∉ (search_ffn c x q).1)
    ∧ (∀ u i, x q = some i → i = 0 → Call.fichubGetStory u ∉ (search_ffn c x q).1) := by
  refine ⟨?_, ?_, ?_⟩
  · intro i hx hi
    refine ⟨?_, ?_, ?_⟩
    · intro v hv
      simp only [search_ffn, hx]
      split
      · simp [hv]
      · rename_i h0
        exact absurd hi h0
    · intro hv
      simp only [search_ffn, hx]
      split
      · cases hf : c.fichub_get_story q <;> simp [hv, hf]
      · rename_i h0
        exact absurd hi h0
    · intro hv hf
      simp only [search_ffn, hx]
      split
      · simp [hv, hf]
      · rename_i h0
        exact absurd hi h0
  · intro u hx0
    simp only [search_ffn, hx0, search_ffn_bulk]
    cases hb : c.atlas_get_bulk q <;> simp [hb]
  · intro u i hx hi0
    simp only [search_ffn, hx]
    split
    · rename_i h0
      exact absurd hi0 h0
    · simp only [search_ffn_bulk]
      cases hb : c.atlas_get_bulk q <;> simp [hb]

/-- C4 witness: the fallback policy applied at failing clients and a
concrete extracted id — both providers raise and the result is Ok none. -/
theorem c4_witness :
    (search_ffn cBothFail (fun _ => some 7) "some ffn query").2 = Except.ok none := by
  exact ((c4_ffn_fallback_policy cBothFail (fun _ => some 7) "some ffn query").1 7 rfl
    (by decide)).2.2 (by decide) (by decide)

/-- C8: family-A resolution order in search_ao3. A captured series
sub-type performs exactly the ao3 series lookup by id; a captured works
sub-type performs the fichub lookup by the matched url first, adding
the ao3 work lookup by id exactly when the fichub call raised; a query
with no AO3-pattern match runs the title search, whose first result (or
none on an empty result list) is the answer. -/
theorem c8_ao3_resolution_order (c : Clients) (q : String) :
    (∀ m, ao3Search q = some m → m.mtype = "series" →
        (search_ao3 c q).1 = [Call.ao3GetSeries (pyInt m.id)])
    ∧ (∀ m, ao3Search q = some m → m.mtype ≠ "series" →
        ((∀ v, c.fichub_get_story m.matched = Except.ok v →
           (search_ao3 c q).1 = [Call.fichubGetStory m.matched]
           ∧ (search_ao3 c q).2 = Except.ok (v.map StoryData.fichub))
         ∧ (c.fichub_get_story m.matched = Except.error FicHubError.exc →
           (search_ao3 c q).1 = [Call.fichubGetStory m.matched, Call.ao3GetWork (pyInt m.id)])))
    ∧ (∀ l, ao3Search q = none → c.ao3_search_works q = Except.ok l →
        (search_ao3 c q).1 = [Call.ao3SearchWorks q]
        ∧ (search_ao3 c q).2 = Except.ok (l.head?.map StoryData.ao3Work)) := by
  refine ⟨?_, ?_, ?_⟩
  · intro m hm hty
    simp only [search_ao3, hm, hty, if_true]
    cases hs : c.ao3_get_series (pyInt m.id) <;> simp [hs]
  · intro m hm hty
    constructor
    · intro v hv
      simp only [search_ao3, hm]
      split
      · rename_i hser
        exact absurd hser hty
      · simp [hv]
    · intro hv
      simp only [search_ao3, hm]
      split
      · rename_i hser
        exact absurd hser hty
      · cases hw : c.ao3_get_work (pyInt m.id) <;> simp [hv, hw]
  · intro l hq hl
    simp [search_ao3, hq, hl]

/-- C8 witness: the scenario input from the specification — the AO3
works url matches with type works and id 12345, and with a failing
aggregator the calls are fichub by url then the ao3 client by id. -/
theorem c8_witness :
    (search_ao3 cBothFail "archiveofourown.org/works/12345").1
      = [Call.fichubGetStory "archiveofourown.org/works/12345",
         Call.ao3GetWork (pyInt "12345")] := by
  exact ((c8_ao3_resolution_order cBothFail "archiveofourown.org/works/12345").2.1
    { matched := "archiveofourown.org/works/12345", mtype := "works", id := "12345" }
    (by decide) (by decide)).2 (by decide)

/-! ### Claims about the renderer budget -/

theorem embedLen_set_description (b : Embed) (s : String) :
    embedLen { b with description := some s } + optLen b.description
      = embedLen b + s.length := by
  cases b
  simp only [embedLen, optLen]
  omega

theorem optLen_description_le (b : Embed) : optLen b.description ≤ embedLen b := by
  cases b
  simp only [embedLen]
  omega

theorem budget_step {b : Embed} {t ph d : String}
    (hd : shortenE t (6000 - (embedLen b : Int)) ph = Except.ok d) :
    embedLen { b with description := some d } ≤ 6000 := by
  have hlen := shortenE_ok_length hd
  have heq := embedLen_set_description b d
  have hle := optLen_description_le b
  omega

theorem budget_step_prepended {b : Embed} {t ph d wl : String}
    (hb : b.description = some wl)
    (hd : shortenE t (6000 - (embedLen b : Int)) ph = Except.ok d) :
    embedLen { b with description := some (d ++ wl) } ≤ 6000 := by
  have hlen := shortenE_ok_length hd
  have heq := embedLen_set_description b (d ++ wl)
  have hle := optLen_description_le b
  rw [hb] at heq hle
  simp only [optLen] at heq hle
  rw [String.length_append] at heq
  omega

/-- Total length of a rendered card, zero when rendering raised. -/
def renderedLen (r : Except PyExc Embed) : Nat :=
  match r with
  | Except.ok e => embedLen e
  | Except.error _ => 0

/-- C5: for every input record — in particular for any summary length —
the AO3 work and series cards never exceed the fixed budget of 6000:
the summary (respectively the series description) is shortened last to
exactly the budget remaining after every other part of the card is in
place, so whenever a card is produced its total length is at most
6000. -/
theorem c5_card_total_within_budget (w : Ao3Work) (s : Ao3Series) (tw ts : Nat) :
    renderedLen (create_ao3_work_embed w tw) ≤ 6000
    ∧ renderedLen (create_ao3_series_embed s ts) ≤ 6000 := by
  constructor
  · cases h : create_ao3_work_embed w tw with
    | error e => simp [renderedLen]
    | ok e =>
      simp only [renderedLen]
      simp only [create_ao3_work_embed, bindE_ok, Except.ok.injEq] at h
      obtain ⟨f, hf, cg, hcg, ch, hch, a0, ha0, d, hd, he⟩ := h
      subst he
      exact budget_step hd
  · cases h : create_ao3_series_embed s ts with
    | error e => simp [renderedLen]
    | ok e =>
      simp only [renderedLen]
      simp only [create_ao3_series_embed, bindE_ok, Except.ok.injEq] at h
      obtain ⟨c0, hc0, d, hd, he⟩ := h
      subst he
      exact budget_step_prepended rfl hd

/-! ### Claims about renderer determinism -/

theorem find?_append_none {α : Type} {p : α → Bool} {l1 l2 : List α}
    (h : l1.find? p = none) : (l1 ++ l2).find? p = l2.find? p := by
  induction l1 with
  | nil => simp
  | cons a l ih =>
    cases hpa : p a with
    | true => simp [List.find?, hpa] at h
    | false =>
      simp only [List.find?, hpa] at h
      simp only [List.cons_append, List.find?, hpa]
      exact ih h

theorem cachedBuild_repeat {α : Type} [DecidableEq α] (cache : List (α × Embed))
    (build : α → Nat → Except PyExc Embed) (x : α) (t1 t2 : Nat) (e : Embed)
    (h : (cachedBuild cache build x t1).2 = Except.ok e) :
    (cachedBuild (cachedBuild cache build x t1).1 build x t2).2 = Except.ok e := by
  cases hf : cache.find? (fun pr => decide (pr.1 = x)) with
  | some pr =>
    simp only [cachedBuild, hf] at h ⊢
    exact h
  | none =>
    cases hb : build x t1 with
    | error err => simp [cachedBuild, hf, hb] at h
    | ok e1 =>
      simp only [cachedBuild, hf, hb] at h ⊢
      have hfind : ((cache ++ [(x, e1)]).find? fun pr => decide (pr.1 = x)) = some (x, e1) := by
        rw [find?_append_none hf]
        simp [List.find?]
      rw [hfind]
      simpa using h

/-- C6 counterexample: the renderer is not byte-deterministic across
repeated invocations. The NotFound card is rebuilt on every call with
the current clock value baked into its timestamp, so rendering the
absent result twice, at clock 0 and clock 1, yields different card
data. -/
theorem c6_counterexample :
    (ff_embed_factory_cached emptyRenderCache none 0).2
      ≠ (ff_embed_factory_cached
          (ff_embed_factory_cached emptyRenderCache none 0).1 none 1).2 := by
  decide

/-- C6 amended: cards embed the wall-clock value at construction, so
byte-identity across invocations holds exactly where the functools
caches apply — for the four typed story variants a repeat invocation
with a value-equal input returns the very card built on first success,
whatever the later clock value; the NotFound card bypasses the cache
and is rebuilt each call with the current clock, so two NotFound
renderings agree only up to their timestamp field. -/
theorem c6_renderer_memoized_amended :
    (∀ (s : RenderCache) (d : StoryData) (t1 t2 : Nat) (e : Embed),
      (ff_embed_factory_cached s (some d) t1).2 = Except.ok e →
      (ff_embed_factory_cached (ff_embed_factory_cached s (some d) t1).1 (some d) t2).2
        = Except.ok e)
    ∧ (∀ (s : RenderCache) (t : Nat),
        (ff_embed_factory_cached s none t).2 = Except.ok (NotFoundEmbed t))
    ∧ (∀ t1 t2 : Nat,
        ({ NotFoundEmbed t1 with timestamp := none } : Embed)
          = { NotFoundEmbed t2 with timestamp := none }) := by
  refine ⟨?_, ?_, ?_⟩
  · intro s d t1 t2 e h
    cases d with
    | atlas st =>
      simp only [ff_embed_factory_cached] at h ⊢
      exact cachedBuild_repeat _ _ _ _ _ _ h
    | fichub st =>
      simp only [ff_embed_factory_cached] at h ⊢
      exact cachedBuild_repeat _ _ _ _ _ _ h
    | ao3Work w =>
      simp only [ff_embed_factory_cached] at h ⊢
      exact cachedBuild_repeat _ _ _ _ _ _ h
    | ao3Series st =>
      simp only [ff_embed_factory_cached] at h ⊢
      exact cachedBuild_repeat _ _ _ _ _ _ h
  · intro s t
    rfl
  · intro t1 t2
    rfl

/-- C6 witness: the amended theorem applied at a concrete cached repeat
— building the sample work card at clock 5 and again at clock 9 returns
the identical card. -/
theorem c6_witness :
    (ff_embed_factory_cached
        (ff_embed_factory_cached emptyRenderCache (some (StoryData.ao3Work sampleWork)) 5).1
        (some (StoryData.ao3Work sampleWork)) 9).2
      = (ff_embed_factory_cached emptyRenderCache (some (StoryData.ao3Work sampleWork)) 5).2 := by
  cases h : (ff_embed_factory_cached emptyRenderCache (some (StoryData.ao3Work sampleWork)) 5).2 with
  | error e =>
    have hok : (ff_embed_factory_cached emptyRenderCache
        (some (StoryData.ao3Work sampleWork)) 5).2 = Except.ok
          ((ff_embed_factory_cached emptyRenderCache
            (some (StoryData.ao3Work sampleWork)) 5).2.toOption.getD (NotFoundEmbed 0)) := by
      decide
    rw [h] at hok
    exact absurd hok (by simp)
  | ok e =>
    exact c6_renderer_memoized_amended.1 emptyRenderCache (StoryData.ao3Work sampleWork) 5 9 e h

/-! ### Claims about the last-updated formatting rule -/

/-- C7 counterexample: the Unknown-marker rule is not uniform across
variants. For an atlas story with no updated timestamp, the Last
Updated field renders the published date, not the Unknown marker. -/
theorem c7_counterexample :
    (create_atlas_ffn_embed sampleAtlasNoUpdated 0).map
        (fun e => (e.fields.map EmbedField.value).head?)
      = Except.ok (some "January 01, 2020")
    ∧ "January 01, 2020" ≠ "Unknown" := by
  exact ⟨by decide, by decide⟩

/-- C7 amended: the first field of every rendered card is Last Updated,
and its value follows the Unknown rule only for the AO3 work and series
variants — a missing timestamp renders as Unknown, a present one as the
calendar date with a completion marker when complete. The atlas variant
substitutes the published date for a missing updated timestamp (never
Unknown), and the fichub variant reads the timestamp unconditionally
and always appends the capitalized status in parentheses instead of a
conditional completion marker. -/
theorem c7_last_updated_amended :
    (∀ (w : Ao3Work) (t : Nat) (e : Embed), create_ao3_work_embed w t = Except.ok e →
      (e.fields.map EmbedField.value).head? = some (match w.date_updated with
        | some dd => dd.strftimeBdY ++ (if w.is_complete then " (Complete)" else "")
        | none => "Unknown"))
    ∧ (∀ (s : Ao3Series) (t : Nat) (e : Embed), create_ao3_series_embed s t = Except.ok e →
      (e.fields.map EmbedField.value).head? = some (match s.date_updated with
        | some dd => dd.strftimeBdY ++ (if s.is_complete then " (Complete)" else "")
        | none => "Unknown"))
    ∧ (∀ (s : AtlasStory) (t : Nat) (e : Embed), create_atlas_ffn_embed s t = Except.ok e →
      (e.fields.map EmbedField.value).head? = some
        ((match s.updated with | some dd => dd | none => s.published).strftimeBdY
          ++ (if s.is_complete then " (Complete)" else "")))
    ∧ (∀ (s : FichubStory) (t : Nat) (e : Embed), create_fichub_embed s t = Except.ok e →
      (e.fields.map EmbedField.value).head? = some
        (s.updated.strftimeBdY ++ " (" ++ pyCapitalize s.status ++ ")")) := by
  refine ⟨?_, ?_, ?_, ?_⟩
  · intro w t e h
    simp only [create_ao3_work_embed, bindE_ok, Except.ok.injEq] at h
    obtain ⟨f, hf, cg, hcg, ch, hch, a0, ha0, d, hd, he⟩ := h
    subst he
    simp [ao3WorkBase]
  · intro s t e h
    simp only [create_ao3_series_embed, bindE_ok, Except.ok.injEq] at h
    obtain ⟨c0, hc0, d, hd, he⟩ := h
    subst he
    simp [ao3SeriesBase]
  · intro s t e h
    simp only [create_atlas_ffn_embed, bindE_ok, Except.ok.injEq] at h
    obtain ⟨f, hf, g, hg, ch, hch, d, hd, he⟩ := h
    subst he
    simp [atlasBase]
  · intro s t e h
    simp only [create_fichub_embed, bindE_ok, Except.ok.injEq] at h
    obtain ⟨f, hf, cg, hcg, ch, hch, st, hst, d, hd, he⟩ := h
    subst he
    simp [fichubBase]

/-- C7 witness: the amended rule applied to the sample work at a
concrete clock — its present timestamp renders as the calendar date
with the completion marker. -/
theorem c7_witness :
    (create_ao3_work_embed sampleWork 3).map
        (fun e => (e.fields.map EmbedField.value).head?)
      = Except.ok (some (match sampleWork.date_updated with
          | some dd => dd.strftimeBdY ++ (if sampleWork.is_complete then " (Complete)" else "")
          | none => "Unknown")) := by
  cases h : create_ao3_work_embed sampleWork 3 with
  | error e =>
    have hok : (create_ao3_work_embed sampleWork 3).map
        (fun e => (e.fields.map EmbedField.value).head?)
        = Except.ok (some "February 03, 2021 (Complete)") := by decide
    rw [h] at hok
    exact absurd hok (by simp [Except.map])
  | ok e =>
    simp only [Except.map, Except.ok.injEq]
    exact c7_last_updated_amended.1 sampleWork 3 e h

/-! ### Claims about NotFound suppression -/

theorem ff_embed_factory_tag (d : StoryData) (t : Nat) (e : Embed)
    (h : ff_embed_factory (some d) t = Except.ok e) : e.isNotFoundCard = false := by
  cases d with
  | atlas s =>
    simp only [ff_embed_factory] at h
    simp only [create_atlas_ffn_embed, bindE_ok, Except.ok.injEq] at h
    obtain ⟨f, hf, g, hg, ch, hch, dd, hdd, he⟩ := h
    subst he
    simp [atlasBase]
  | fichub s =>
    simp only [ff_embed_factory] at h
    simp only [create_fichub_embed, bindE_ok, Except.ok.injEq] at h
    obtain ⟨f, hf, cg, hcg, ch, hch, st, hst, dd, hdd, he⟩ := h
    subst he
    simp [fichubBase]
  | ao3Work w =>
    simp only [ff_embed_factory] at h
    simp only [create_ao3_work_embed, bindE_ok, Except.ok.injEq] at h
    obtain ⟨f, hf, cg, hcg, ch, hch, a0, ha0, dd, hdd, he⟩ := h
    subst he
    simp [ao3WorkBase]
  | ao3Series s =>
    simp only [ff_embed_factory] at h
    simp only [create_ao3_series_embed, bindE_ok, Except.ok.injEq] at h
    obtain ⟨c0, hc0, dd, hdd, he⟩ := h
    subst he
    simp [ao3SeriesBase]

theorem sendLoop_no_notfound (now : Nat) (l : List (Option StoryData)) :
    ∀ em ∈ (sendLoop now l).1, em.isNotFoundCard = false := by
  induction l with
  | nil => simp [sendLoop]
  | cons d rest ih =>
    cases d with
    | none => simpa [sendLoop] using ih
    | some sd =>
      intro em hm
      simp only [sendLoop] at hm
      cases hfac : ff_embed_factory (some sd) now with
      | error e =>
        rw [hfac] at hm
        simp at hm
      | ok e2 =>
        rw [hfac] at hm
        by_cases htag : e2.isNotFoundCard
        · simp only [htag, if_true] at hm
          exact ih em hm
        · simp only [htag, if_false] at hm
          cases hm with
          | head => simpa using htag
          | tail _ hh => exact ih em hh

/-- C10 counterexample: the explicit search command does not always
send a card. With a failing fichub client, wf_search on the other
platform propagates the provider failure and sends nothing at all. -/
theorem c10_counterexample :
    wf_search cBothFail (fun _ => none) Platform.other "https://example.org/b" 0
      = ([], some PyExc.fichubExc) := by
  decide

/-- C10 amended: whenever resolution completes with a value and the
renderer succeeds, the explicit search command sends exactly one card,
which is the NotFound card precisely when resolution returned null;
when resolution or rendering raises, nothing is sent. In automatic
message scanning every card actually sent is a non-NotFound card, and a
null resolution entry contributes nothing to the send loop. -/
theorem c10_notfound_suppression_amended :
    (∀ (c : Clients) (x : String → Option Nat) (p : Platform) (q : String) (now : Nat)
        (d : Option StoryData) (em : Embed),
      resolve_by_family c x p q = Except.ok d →
      ff_embed_factory d now = Except.ok em →
      wf_search c x p q now = ([em], none) ∧ (em.isNotFoundCard = true ↔ d = none))
    ∧ (∀ (c : Clients) (cache : List (Nat × Nat)) (selfA : Bool) (g : Option Nat)
        (ch : Nat) (content : String) (now : Nat) (em : Embed),
      em ∈ (on_message c cache selfA g ch content now).1 → em.isNotFoundCard = false)
    ∧ (∀ (now : Nat) (rest : List (Option StoryData)),
        sendLoop now (none :: rest) = sendLoop now rest) := by
  refine ⟨?_, ?_, ?_⟩
  · intro c x p q now d em hres hfac
    constructor
    · simp [wf_search, hres, hfac]
    · cases d with
      | none =>
        simp only [ff_embed_factory, Except.ok.injEq] at hfac
        subst hfac
        simp [NotFoundEmbed]
      | some sd =>
        have htag := ff_embed_factory_tag sd now em hfac
        simp [htag]
  · intro c cache selfA g ch content now em hm
    simp only [on_message] at hm
    split at hm
    · simp at hm
    · split at hm
      · simp at hm
      · split at hm
        · exact sendLoop_no_notfound now _ em hm
        · simp at hm
  · intro now rest
    rfl

/-- C10 witness: the amended theorem applied at clients that answer
with no results — the ffn search command completes with null and sends
exactly the NotFound card. -/
theorem c10_witness :
    wf_search cNotFound (fun _ => none) Platform.ffn "zzz" 0 = ([NotFoundEmbed 0], none) := by
  exact (c10_notfound_suppression_amended.1 cNotFound (fun _ => none) Platform.ffn "zzz" 0
    none (NotFoundEmbed 0) (by decide) (by decide)).1
